import Mathlib

/-!
Shallow embedding of the session resource lifecycle subsystem of the
deskcloud-mcp repository (directory src/app): the display allocator
(services/display_manager.py), the filesystem isolation manager
(services/filesystem_manager.py), the session manager
(services/session_manager.py), the cleanup service
(services/session_cleanup.py), and the persistence layer they call
(db/repositories/session_repo.py, db/models.py).

Machine integers do not occur on the modelled paths; display numbers,
ports, sizes and timestamps are modelled as Nat.  Python exceptions are
modelled with Except; a call on an attribute that the target class does
not define is an AttributeError, following Python attribute-lookup
semantics.
-/

namespace DeskCloud

/-- Python exceptions raised on the modelled paths. -/
inductive PyError
  | attributeError (name : String)
  | valueError (msg : String)
  | runtimeError (msg : String)
  deriving DecidableEq, Repr

/-- Session states, from class SessionStatus in src/app/db/models.py. -/
inductive SessionStatus
  | ACTIVE
  | PROCESSING
  | COMPLETED
  | ERROR
  | ARCHIVED
  deriving DecidableEq, Repr

/-- A row of the sessions table (class Session in src/app/db/models.py);
the columns the verified claims mention.  Timestamps are Nat. -/
structure SessionRow where
  id : String
  status : SessionStatus
  display_num : Option Nat := none
  vnc_port : Option Nat := none
  novnc_port : Option Nat := none
  last_activity : Nat
  updated_at : Nat
  deriving DecidableEq, Repr

/-- A row of the messages table (class Message in src/app/db/models.py). -/
structure MessageRow where
  id : String
  session_id : String
  role : String
  content : String
  deriving DecidableEq, Repr

/-- The persistent store: the two tables of db/models.py. -/
structure DB where
  sessions : List SessionRow
  messages : List MessageRow
  deriving DecidableEq, Repr

/-- The exhaustive list of methods defined on class SessionRepository in
src/app/db/repositories/session_repo.py (besides the constructor).  Python
attribute lookup on a repository instance succeeds exactly for these
names. -/
def repoMethods : List String :=
  ["create_session", "get_session", "list_sessions", "update_session_status",
   "delete_session", "add_message", "get_session_messages",
   "get_messages_as_anthropic_format", "bulk_add_messages"]

/-- Python semantics of looking up attribute name on a SessionRepository
instance: ok when the class defines the method, AttributeError otherwise. -/
def repoAttr (name : String) : Except PyError Unit :=
  if repoMethods.contains name then .ok () else .error (.attributeError name)

/-- SessionRepository.update_session_status: sets the status column of the
matching row (and touches updated_at); returns whether a row matched. -/
def DB.update_session_status (db : DB) (sid : String) (st : SessionStatus)
    (now : Nat) : DB :=
  { db with
    sessions := db.sessions.map fun r =>
      if r.id = sid then { r with status := st, updated_at := now } else r }

/-- SessionRepository.delete_session: soft delete, archives the row. -/
def DB.delete_session (db : DB) (sid : String) (now : Nat) : DB :=
  db.update_session_status sid .ARCHIVED now

/-- SessionRepository.add_message: inserts a message row and touches the
parent session row updated_at column. -/
def DB.add_message (db : DB) (sid role content mid : String) (now : Nat) : DB :=
  { db with
    messages := db.messages ++ [⟨mid, sid, role, content⟩],
    sessions := db.sessions.map fun r =>
      if r.id = sid then { r with updated_at := now } else r }

/-- The call repo.update_last_activity(session.id) made at
src/app/services/session_manager.py line 246: SessionRepository defines no
method of this name, so Python attribute lookup raises AttributeError
before any body could run. -/
def repoUpdateLastActivity (db : DB) (_sid : String) : Except PyError DB :=
  (repoAttr "update_last_activity").map fun _ => db

/-- The call repo.get_sessions_inactive_since(cutoff) made at
src/app/services/session_cleanup.py lines 139 and 193: SessionRepository
defines no method of this name, so the call raises AttributeError. -/
def repoGetSessionsInactiveSince (_db : DB) (_cutoff : Nat) :
    Except PyError (List SessionRow) :=
  (repoAttr "get_sessions_inactive_since").map fun _ => []

/-- The call repo.update_session_display(...) made at
src/app/services/session_manager.py line 129: SessionRepository defines no
method of this name, so the call raises AttributeError. -/
def repoUpdateSessionDisplay (db : DB) (_sid : String) : Except PyError DB :=
  (repoAttr "update_session_display").map fun _ => db

/-- In-memory record of an active session
(dataclass ActiveSession in src/app/services/session_manager.py).
runner_present models whether the runner field holds an AgentRunner. -/
structure ActiveSession where
  session_id : String
  runner_present : Bool := false
  is_processing : Bool := false
  deriving DecidableEq, Repr

/-- The SessionManager dict self._active_sessions, keyed by session id. -/
def ActiveMap := String → Option ActiveSession

/-- Dict write: self._active_sessions[sid] = a. -/
def ActiveMap.set (m : ActiveMap) (sid : String) (a : ActiveSession) : ActiveMap :=
  fun x => if x = sid then some a else m x

/-- Dict delete: del self._active_sessions[sid]. -/
def ActiveMap.remove (m : ActiveMap) (sid : String) : ActiveMap :=
  fun x => if x = sid then none else m x

/-- In-place mutation of the entry stored under sid, when present. -/
def ActiveMap.modify (m : ActiveMap) (sid : String)
    (f : ActiveSession → ActiveSession) : ActiveMap :=
  fun x => if x = sid then (m x).map f else m x

/-- The in-flight guard that is_session_processing reads: the entry exists
and its processing flag is set. -/
def inFlight (m : ActiveMap) (sid : String) : Bool :=
  match m sid with
  | some a => a.is_processing
  | none => false

/-- SessionManager.send_message (src/app/services/session_manager.py lines
205 to 289).  Validates the session state, persists the user message, then
calls the nonexistent repo.update_last_activity, which raises
AttributeError; the mutations after that point (status to PROCESSING,
runner tracking) are dead code, kept to mirror the source.  Returns the
store, the active map, and either the new message id or the raised
exception. -/
def send_message (db : DB) (act : ActiveMap) (session : SessionRow)
    (content newMsgId : String) (now : Nat) :
    DB × ActiveMap × Except PyError String :=
  if session.status = .PROCESSING then
    (db, act, .error (.valueError "Session is already processing a message"))
  else if session.status = .ARCHIVED then
    (db, act, .error (.valueError "Cannot send to archived session"))
  else
    let db1 := db.add_message session.id "user" content newMsgId now
    match repoUpdateLastActivity db1 session.id with
    | .error e => (db1, act, .error e)
    | .ok db2 =>
      let db3 := db2.update_session_status session.id .PROCESSING now
      let act1 :=
        match act session.id with
        | some a => act.set session.id
            { a with runner_present := true, is_processing := true }
        | none => act.set session.id
            { session_id := session.id, runner_present := true,
              is_processing := true }
      (db3, act1, .ok newMsgId)

/-!
Display manager (src/app/services/display_manager.py).  OS process ids are
abstracted away: the claims under verification concern allocation, the
token file, tracking and error rollback, none of which reads a pid.
-/

/-- settings.vnc_base_port (src/app/config.py line 82). -/
def vnc_base_port : Nat := 5900

/-- Dataclass DisplayInfo (src/app/services/display_manager.py lines 38
to 74), without the abstracted pid fields. -/
structure DisplayInfo where
  session_id : String
  display_num : Nat
  vnc_port : Nat
  deriving DecidableEq, Repr

/-- The exhaustive list of attributes a DisplayInfo instance exposes:
the six dataclass fields and the two properties.  Python attribute lookup
on a DisplayInfo succeeds exactly for these names. -/
def displayInfoAttrs : List String :=
  ["session_id", "display_num", "vnc_port", "xvfb_pid", "vnc_pid", "wm_pid",
   "display_env", "vnc_url"]

/-- Python str.startswith, on the underlying character lists. -/
def pyStartsWith (line p : String) : Bool :=
  p.data.isPrefixOf line.data

/-- DisplayManager._add_token: appends one line to the shared token file
(the literal host is localhost, line 158 of display_manager.py). -/
def addToken (file : List String) (sid : String) (vnc_port : Nat) :
    List String :=
  file ++ [sid ++ ": localhost:" ++ toString vnc_port ++ "\n"]

/-- DisplayManager._remove_token: rewrites the token file keeping every
line that does not start with the session id followed by a colon. -/
def removeToken (file : List String) (sid : String) : List String :=
  file.filter fun line => !(pyStartsWith line (sid ++ ":"))

/-- State of the DisplayManager singleton: the displays dict, the set of
used display numbers (as a list), the next-number cursor and the token
file contents. -/
structure DMState where
  displays : String → Option DisplayInfo
  used_display_nums : List Nat
  next_display_num : Nat
  token_file : List String

/-- The while loop of _allocate_display_num, with explicit fuel: advance
the cursor while it lies in the used set.  Fuel of one more than the size
of the used set always suffices (pigeonhole), so the fueled function
computes exactly what the Python loop computes. -/
def scanFree (used : List Nat) : Nat → Nat → Nat
  | 0, n => n
  | fuel + 1, n => if n ∈ used then scanFree used fuel (n + 1) else n

/-- DisplayManager._allocate_display_num (lines 421 to 430): skip used
numbers, take the cursor value, mark it used, advance the cursor. -/
def allocateDisplayNum (st : DMState) : Nat × DMState :=
  let n := scanFree st.used_display_nums
    (st.used_display_nums.length + 1) st.next_display_num
  (n, { st with used_display_nums := n :: st.used_display_nums,
                next_display_num := n + 1 })

/-- DisplayManager._release_display_num (lines 432 to 434): discard from
the used set. -/
def releaseDisplayNum (st : DMState) (n : Nat) : DMState :=
  { st with used_display_nums := st.used_display_nums.filter fun m => !(m == n) }

/-- The startup steps of create_display that can raise, in program order.
Token registration is not among them: _add_token catches its own
exceptions (lines 160 to 161), and everything after it is pure tracking. -/
inductive CreateStep
  | startXvfb
  | waitForDisplay
  | startWindowManager
  | startVnc
  deriving DecidableEq, Repr

def CreateStep.describe : CreateStep → String
  | .startXvfb => "Xvfb spawn failed"
  | .waitForDisplay => "Display not ready"
  | .startWindowManager => "window manager failed"
  | .startVnc => "x11vnc failed"

/-- DisplayManager.create_display (lines 185 to 257).  failAt names the
first startup step that raises, if any; on failure the handler releases
the display number, removes any token line for the session and raises
RuntimeError.  On success the token line is appended and the display is
tracked. -/
def create_display (st : DMState) (sid : String)
    (failAt : Option CreateStep) : Except PyError DisplayInfo × DMState :=
  match st.displays sid with
  | some info => (.ok info, st)
  | none =>
    let (display_num, st1) := allocateDisplayNum st
    let vnc_port := vnc_base_port + display_num
    match failAt with
    | some step =>
      let st2 := releaseDisplayNum st1 display_num
      let st3 := { st2 with token_file := removeToken st2.token_file sid }
      (.error (.runtimeError ("Failed to create display: " ++ step.describe)),
       st3)
    | none =>
      let info : DisplayInfo := ⟨sid, display_num, vnc_port⟩
      let st2 := { st1 with
        token_file := addToken st1.token_file sid vnc_port,
        displays := fun x => if x = sid then some info else st1.displays x }
      (.ok info, st2)

/-- DisplayManager.destroy_display (lines 259 to 296): false when the
session is unknown; otherwise kill the three processes (abstracted),
remove the token line, drop tracking, release the number and delete the
X11 lock files (abstracted). -/
def destroy_display (st : DMState) (sid : String) : Bool × DMState :=
  match st.displays sid with
  | none => (false, st)
  | some info =>
    let st1 := { st with token_file := removeToken st.token_file sid }
    let st2 := { st1 with
      displays := fun x => if x = sid then none else st1.displays x }
    (true, releaseDisplayNum st2 info.display_num)

/-!
Filesystem manager (src/app/services/filesystem_manager.py).  The disk is
modelled as the list of regular files (directory path components, name,
size); directories themselves carry no size and are left implicit, which
matches get_disk_usage summing f.stat().st_size over files only.
-/

/-- settings.sessions_dir is /sessions (src/app/config.py line 114);
active session trees live under /sessions/active. -/
def active_dir : List String := ["sessions", "active"]

/-- settings.filesystem_base_dir is /sessions/base (config.py line 117). -/
def filesystem_base_dir : List String := ["sessions", "base"]

/-- _get_session_paths: the upper (writable) layer of a session. -/
def upperDir (sid : String) : List String := active_dir ++ [sid, "upper"]

/-- _get_session_paths: the root of a session's private tree. -/
def sessionRootDir (sid : String) : List String := active_dir ++ [sid]

/-- A regular file on disk: its directory path, name and size in bytes. -/
structure PFile where
  dir : List String
  name : String
  size : Nat
  deriving DecidableEq, Repr

/-- Path.rglob from a directory: the file lies in the directory or any
descendant, i.e. the directory path is a prefix of the file's directory. -/
def underDir (d : List String) (f : PFile) : Bool :=
  d.isPrefixOf f.dir

/-- Dataclass FilesystemInfo (filesystem_manager.py lines 54 to 88);
paths are kept as component lists. -/
structure FilesystemInfo where
  session_id : String
  home_path : List String
  tmp_path : List String
  merged_root : List String
  upper_path : List String
  is_mounted : Bool
  deriving DecidableEq, Repr

/-- State of the FilesystemManager singleton: the tracking dict and the
disk contents. -/
structure FSState where
  filesystems : String → Option FilesystemInfo
  disk : List PFile

/-- FilesystemManager.create_filesystem (lines 160 to 230): idempotent;
creates the directory triple (no files), probes overlay capability,
mounts, tracks.  overlayAvailable is the outcome of the live probe; on
failure the partially created session tree is removed and RuntimeError is
raised. -/
def create_filesystem (st : FSState) (sid : String)
    (overlayAvailable : Bool) : Except PyError FilesystemInfo × FSState :=
  match st.filesystems sid with
  | some info => (.ok info, st)
  | none =>
    if overlayAvailable then
      let info : FilesystemInfo :=
        { session_id := sid
          home_path := sessionRootDir sid ++ ["merged", "home", "user"]
          tmp_path := sessionRootDir sid ++ ["merged", "tmp"]
          merged_root := sessionRootDir sid ++ ["merged"]
          upper_path := upperDir sid
          is_mounted := true }
      (.ok info,
       { st with filesystems := fun x => if x = sid then some info
                                         else st.filesystems x })
    else
      let st1 := { st with
        disk := st.disk.filter fun f => !(underDir (sessionRootDir sid) f) }
      (.error (.runtimeError "Failed to create filesystem: overlay mount unavailable"),
       st1)

/-- FilesystemManager.destroy_filesystem (lines 232 to 271): false when
unknown; otherwise unmount (abstracted), delete the session tree, drop
tracking. -/
def destroy_filesystem (st : FSState) (sid : String) : Bool × FSState :=
  match st.filesystems sid with
  | none => (false, st)
  | some _ =>
    let st1 := { st with
      disk := st.disk.filter fun f => !(underDir (sessionRootDir sid) f),
      filesystems := fun x => if x = sid then none else st.filesystems x }
    (true, st1)

/-- FilesystemManager.get_disk_usage (lines 304 to 332): None when the
session is untracked, otherwise the sum of the sizes of the files under
the upper layer only (upper_path.rglob), reported as size_bytes. -/
def get_disk_usage (st : FSState) (sid : String) : Option Nat :=
  match st.filesystems sid with
  | none => none
  | some _ =>
    some (((st.disk.filter (underDir (upperDir sid))).map PFile.size).sum)

/-!
Remaining session manager operations, the agent runner's task outcome,
recovery, and the cleanup tick.
-/

/-- SessionManager.create_session (session_manager.py lines 92 to 150).
The row is persisted without display fields; then create_display runs and,
when it succeeds, the call repo.update_session_display raises
AttributeError (the method does not exist), which the warning branch
swallows together with display failures, so the display binding is never
persisted; finally an ActiveSession entry is registered.  Returns the new
state and the returned row. -/
def create_session (db : DB) (dm : DMState) (act : ActiveMap)
    (sid _model _provider : String) (now : Nat) (failAt : Option CreateStep) :
    DB × DMState × ActiveMap × SessionRow :=
  let row : SessionRow :=
    { id := sid, status := .ACTIVE, display_num := none, vnc_port := none,
      novnc_port := none, last_activity := now, updated_at := now }
  let db1 : DB := { db with sessions := db.sessions ++ [row] }
  let (res, dm1) := create_display dm sid failAt
  let db2 :=
    match res with
    | .error _ => db1
    | .ok _ =>
      match repoUpdateSessionDisplay db1 sid with
      | .error _ => db1
      | .ok db' => db'
  let act1 := act.set sid { session_id := sid }
  (db2, dm1, act1, row)

/-- SessionManager.delete_session (lines 169 to 199): cancel any runner,
drop the ActiveSession entry, destroy the display, archive the row.
Returns whether a row was archived (repo.delete_session row count). -/
def delete_session (db : DB) (dm : DMState) (act : ActiveMap)
    (sid : String) (now : Nat) : DB × DMState × ActiveMap × Bool :=
  let act1 := act.remove sid
  let (_, dm1) := destroy_display dm sid
  let db1 := db.delete_session sid now
  (db1, dm1, act1, db.sessions.any fun r => r.id == sid)

/-- SessionManager.cancel_processing (lines 427 to 439): when the entry
exists and holds a runner, cancel the runner task and clear the processing
flag (the runner field itself is not cleared, and the persisted status is
not touched); otherwise report nothing to cancel. -/
def cancel_processing (db : DB) (act : ActiveMap) (sid : String) :
    DB × ActiveMap × Bool :=
  match act sid with
  | some a =>
    if a.runner_present then
      (db, act.modify sid (fun x => { x with is_processing := false }), true)
    else (db, act, false)
  | none => (db, act, false)

/-- How the awaited runner task terminates, as seen by a caller of
await runner._task. -/
inductive TaskResult
  | completed
  | raised
  | cancelled
  deriving DecidableEq, Repr

/-- AgentRunner._run_loop (agent_runner.py lines 262 to 338): the body is
one try block whose except Exception branch converts any execution
failure into an error event plus a completion event with error status and
then returns normally, so the background task completes normally whether
the execution succeeded or raised.  Returns the emitted terminal event
statuses and the task result. -/
def run_loop (execFails : Bool) : List String × TaskResult :=
  if execFails then (["error", "message_complete:error"], .completed)
  else (["message_complete:completed"], .completed)

/-- SessionManager._handle_completion (session_manager.py lines 291 to
360).  Awaits the runner task (taskRes); on normal completion persists the
runner's new messages and sets the status to ACTIVE; the except Exception
branch (entered when the await re-raises an Exception or when persisting
raises, persistFails) sets the status to ERROR; a CancelledError from an
awaited cancelled task is not an Exception, so neither status update runs;
the finally block always clears the processing flag and the runner field. -/
def handle_completion (db : DB) (act : ActiveMap) (sid : String)
    (newMsgs : List MessageRow) (taskRes : TaskResult) (persistFails : Bool)
    (now : Nat) : DB × ActiveMap :=
  let clear : ActiveMap := act.modify sid fun a =>
    { a with is_processing := false, runner_present := false }
  match taskRes with
  | .cancelled => (db, clear)
  | .raised => (db.update_session_status sid .ERROR now, clear)
  | .completed =>
    if persistFails then (db.update_session_status sid .ERROR now, clear)
    else
      let db1 : DB := { db with messages := db.messages ++ newMsgs }
      (db1.update_session_status sid .ACTIVE now, clear)

/-- The recovery loop body of DisplayManager.recover_active_sessions
(display_manager.py lines 400 to 408): one create_display per row, a
failure is logged and does not abort the rest; counts successes. -/
def recoverLoop (dm : DMState) (rows : List SessionRow)
    (failures : String → Option CreateStep) : Nat × DMState :=
  match rows with
  | [] => (0, dm)
  | row :: rest =>
    let (res, dm1) := create_display dm row.id (failures row.id)
    let (k, dm2) := recoverLoop dm1 rest failures
    match res with
    | .ok _ => (k + 1, dm2)
    | .error _ => (k, dm2)

/-- DisplayManager.recover_active_sessions (lines 364 to 415): query the
rows with status active and a non-null display number, then re-create
their displays best-effort and return the count recovered. -/
def recover_active_sessions (db : DB) (dm : DMState)
    (failures : String → Option CreateStep) : Nat × DMState :=
  let rows := db.sessions.filter fun r =>
    decide (r.status = .ACTIVE) && !(r.display_num == none)
  recoverLoop dm rows failures

/-- settings.filesystem_isolation_enabled (config.py line 120). -/
def filesystem_isolation_enabled : Bool := true

/-- The per-session body of the cleanup tick (session_cleanup.py lines
147 to 169): destroy the display, destroy the filesystem when isolation
is enabled, archive the row; a failure on one session is logged and does
not abort the batch.  Counts destroyed sessions. -/
def cleanupLoop (db : DB) (dm : DMState) (fs : FSState)
    (rows : List SessionRow) (now : Nat) : DB × DMState × FSState × Nat :=
  match rows with
  | [] => (db, dm, fs, 0)
  | row :: rest =>
    let (_, dm1) := destroy_display dm row.id
    let (_, fs1) :=
      if filesystem_isolation_enabled then destroy_filesystem fs row.id
      else (false, fs)
    let db1 := db.delete_session row.id now
    let (db2, dm2, fs2, k) := cleanupLoop db1 dm1 fs1 rest now
    (db2, dm2, fs2, k + 1)

/-- SessionCleanupService._cleanup_expired_sessions (session_cleanup.py
lines 124 to 175), the body of one cleanup tick after the interval sleep.
It calls the nonexistent repo.get_sessions_inactive_since, whose
AttributeError is caught by the outer except Exception branch (line 174)
and logged, so the loop over expired sessions never runs.  Returns the
state and the number of sessions destroyed. -/
def cleanup_tick (db : DB) (dm : DMState) (fs : FSState) (now ttl : Nat) :
    DB × DMState × FSState × Nat :=
  let cutoff := now - ttl
  match repoGetSessionsInactiveSince db cutoff with
  | .error _ => (db, dm, fs, 0)
  | .ok expired => cleanupLoop db dm fs expired now

/-!
Concrete fixtures used by witnesses and counterexamples.
-/

/-- The empty active-session dict. -/
def actEmpty : ActiveMap := fun _ => none

/-- A freshly initialised DisplayManager: no displays, no used numbers,
cursor at 1, empty token file. -/
def dmEmpty : DMState := ⟨fun _ => none, [], 1, []⟩

/-- A freshly initialised FilesystemManager over an empty disk. -/
def fsEmpty : FSState := ⟨fun _ => none, []⟩

/-- A session row in the ACTIVE state with no activity since time 0. -/
def sessIdleRow : SessionRow :=
  { id := "sess_idle", status := .ACTIVE, last_activity := 0, updated_at := 0 }

/-- A display manager tracking one display for sess_idle. -/
def dmIdle : DMState :=
  ⟨fun x => if x = "sess_idle" then some ⟨"sess_idle", 1, 5901⟩ else none,
   [1], 2, ["sess_idle: localhost:5901\n"]⟩

/-!
Claim theorems.
-/

/-- C1: the claim says a cleanup tick destroys the display and filesystem
of every session whose last_activity is older than now minus TTL and
archives its record.  In the code the tick calls
repo.get_sessions_inactive_since, a method SessionRepository does not
define; the AttributeError is caught by the tick's outer except branch,
so every tick returns with nothing destroyed: the store, the display
manager and the filesystem manager are returned unchanged and the
destroyed count is 0.  In particular a session idle for longer than the
TTL keeps its ACTIVE status and its display. -/
theorem C1_cleanup_tick_destroys_nothing :
    (∀ (db : DB) (dm : DMState) (fs : FSState) (now ttl : Nat),
      cleanup_tick db dm fs now ttl = (db, dm, fs, 0)) ∧
    ((cleanup_tick ⟨[sessIdleRow], []⟩ dmIdle fsEmpty 3601 3600).1.sessions.map
        SessionRow.status = [.ACTIVE]) ∧
    ((cleanup_tick ⟨[sessIdleRow], []⟩ dmIdle fsEmpty 3601 3600).2.1.displays
        "sess_idle" = some ⟨"sess_idle", 1, 5901⟩) :=
  ⟨fun _ _ _ _ _ => rfl, by decide, by decide⟩

/-- On a session that passes both status checks, send_message adds the
user message and then stops with the AttributeError raised by the
nonexistent repo.update_last_activity. -/
theorem send_message_attr_error
    (db : DB) (act : ActiveMap) (session : SessionRow)
    (content newMsgId : String) (now : Nat)
    (h1 : session.status ≠ .PROCESSING) (h2 : session.status ≠ .ARCHIVED) :
    send_message db act session content newMsgId now =
      (db.add_message session.id "user" content newMsgId now, act,
       .error (.attributeError "update_last_activity")) := by
  unfold send_message
  rw [if_neg h1, if_neg h2]
  rfl

/-- C2: the claim says send_message on a session that is neither
PROCESSING nor ARCHIVED persists the user message, refreshes
last_activity, sets the status to PROCESSING and returns the message id
with the event queue.  In the code the call after persisting the message
is repo.update_last_activity, a method SessionRepository does not define,
so every such send_message raises AttributeError: the user message is
persisted, but last_activity is not refreshed, the status is not changed,
no runner is tracked and nothing is returned. -/
theorem C2_send_message_raises_attribute_error
    (db : DB) (act : ActiveMap) (session : SessionRow)
    (content newMsgId : String) (now : Nat)
    (h1 : session.status ≠ .PROCESSING) (h2 : session.status ≠ .ARCHIVED) :
    send_message db act session content newMsgId now =
      (db.add_message session.id "user" content newMsgId now, act,
       .error (.attributeError "update_last_activity")) :=
  send_message_attr_error db act session content newMsgId now h1 h2

/-- Witness for C2 at a concrete ACTIVE session. -/
theorem C2_witness :
    sessIdleRow.status ≠ SessionStatus.PROCESSING ∧
    sessIdleRow.status ≠ SessionStatus.ARCHIVED ∧
    send_message ⟨[sessIdleRow], []⟩ actEmpty sessIdleRow "hello" "msg_1" 7 =
      (DB.add_message ⟨[sessIdleRow], []⟩ sessIdleRow.id "user" "hello" "msg_1" 7,
       actEmpty, .error (.attributeError "update_last_activity")) :=
  ⟨by decide, by decide,
   C2_send_message_raises_attribute_error ⟨[sessIdleRow], []⟩ actEmpty
     sessIdleRow "hello" "msg_1" 7 (by decide) (by decide)⟩

/-- C9: send_message on a session whose status is PROCESSING or ARCHIVED
raises ValueError before touching anything: the store (sessions, messages,
last_activity) and the active map are returned unchanged and no runner is
started. -/
theorem C9_send_message_state_conflict_rejected
    (db : DB) (act : ActiveMap) (session : SessionRow)
    (content newMsgId : String) (now : Nat)
    (h : session.status = .PROCESSING ∨ session.status = .ARCHIVED) :
    ∃ msg, send_message db act session content newMsgId now =
      (db, act, .error (.valueError msg)) := by
  rcases h with h | h
  · exact ⟨_, by unfold send_message; rw [if_pos h]⟩
  · by_cases hp : session.status = .PROCESSING
    · exact ⟨_, by unfold send_message; rw [if_pos hp]⟩
    · exact ⟨_, by unfold send_message; rw [if_neg hp, if_pos h]⟩

/-- Witness for C9 at a concrete PROCESSING session. -/
theorem C9_witness :
    (SessionRow.status ⟨"s2", .PROCESSING, none, none, none, 0, 0⟩ =
        .PROCESSING ∨
     SessionRow.status ⟨"s2", .PROCESSING, none, none, none, 0, 0⟩ =
        .ARCHIVED) ∧
    ∃ msg,
      send_message ⟨[], []⟩ actEmpty ⟨"s2", .PROCESSING, none, none, none, 0, 0⟩
        "hi" "msg_2" 3 = (⟨[], []⟩, actEmpty, .error (.valueError msg)) :=
  ⟨Or.inl rfl,
   C9_send_message_state_conflict_rejected ⟨[], []⟩ actEmpty
     ⟨"s2", .PROCESSING, none, none, none, 0, 0⟩ "hi" "msg_2" 3 (Or.inl rfl)⟩

/-- No persisted session row carries a display number.  This holds of
every store the modelled code can produce, because the only write of the
display columns goes through the nonexistent repo.update_session_display. -/
def NoDisplayPersisted (db : DB) : Prop :=
  ∀ r ∈ db.sessions, r.display_num = none

/-- The sessions table after create_session: exactly the old rows plus the
new row, whose display columns are null — the display binding update is
swallowed whether or not create_display succeeded. -/
theorem create_session_sessions_eq (db : DB) (dm : DMState) (act : ActiveMap)
    (sid mdl prov : String) (now : Nat) (failAt : Option CreateStep) :
    (create_session db dm act sid mdl prov now failAt).1.sessions =
      db.sessions ++ [⟨sid, .ACTIVE, none, none, none, now, now⟩] := by
  unfold create_session
  cases h : dm.displays sid <;> cases failAt <;>
    simp [create_display, h, allocateDisplayNum, repoUpdateSessionDisplay,
      repoAttr, repoMethods, Except.map]

/-- C6: SessionRepository defines no update_session_display method and
DisplayInfo exposes no novnc_port attribute, so in every create_session
call in which create_display succeeds the attempt to persist the display
binding raises AttributeError, which the warning branch swallows: the
returned row and every persisted row keep a null display number, and
recover_active_sessions, which selects active rows with a non-null
display number, always selects zero rows and returns 0. -/
theorem C6_display_binding_never_persisted
    (db : DB) (dm : DMState) (act : ActiveMap)
    (sid mdl prov : String) (now : Nat)
    (failures : String → Option CreateStep)
    (hdb : NoDisplayPersisted db) :
    (repoMethods.contains "update_session_display" = false ∧
     displayInfoAttrs.contains "novnc_port" = false) ∧
    repoUpdateSessionDisplay db sid =
      .error (.attributeError "update_session_display") ∧
    (create_session db dm act sid mdl prov now none).2.2.2.display_num =
      none ∧
    NoDisplayPersisted (create_session db dm act sid mdl prov now none).1 ∧
    recover_active_sessions db dm failures = (0, dm) := by
  refine ⟨⟨rfl, rfl⟩, rfl, rfl, ?_, ?_⟩
  · intro r hr
    rw [create_session_sessions_eq] at hr
    rcases List.mem_append.mp hr with h | h
    · exact hdb r h
    · simp only [List.mem_singleton] at h
      subst h
      rfl
  · have hfil : (db.sessions.filter fun r =>
        decide (r.status = .ACTIVE) && !(r.display_num == none)) = [] := by
      apply List.filter_eq_nil_iff.mpr
      intro r hr
      simp [hdb r hr]
    unfold recover_active_sessions
    rw [hfil]
    rfl

/-- Witness for C6 at a concrete store holding one displayless row. -/
theorem C6_witness :
    NoDisplayPersisted ⟨[sessIdleRow], []⟩ ∧
    recover_active_sessions ⟨[sessIdleRow], []⟩ dmEmpty (fun _ => none) =
      (0, dmEmpty) := by
  have hnd : NoDisplayPersisted ⟨[sessIdleRow], []⟩ := by
    intro r hr
    rw [List.mem_singleton] at hr
    subst hr
    rfl
  exact ⟨hnd,
    (C6_display_binding_never_persisted ⟨[sessIdleRow], []⟩ dmEmpty actEmpty
      "sess_new" "claude-sonnet-4-5" "anthropic" 9 (fun _ => none)
      hnd).2.2.2.2⟩

/-!
Agreement between the persisted PROCESSING status and the in-memory
guard, for claims about the single-flight state machine.
-/

/-- The two single-flight signals agree: a persisted row is PROCESSING
exactly when the in-memory guard records an in-flight execution for it. -/
def Agree (db : DB) (act : ActiveMap) : Prop :=
  ∀ r ∈ db.sessions, (r.status = .PROCESSING ↔ inFlight act r.id = true)

instance (db : DB) (act : ActiveMap) : Decidable (Agree db act) :=
  List.decidableBAll _ db.sessions

/-- Modifying the entry of one session with a flag-clearing function
makes its in-flight signal false. -/
theorem inFlight_modify_self (act : ActiveMap) (sid : String)
    (f : ActiveSession → ActiveSession)
    (hf : ∀ a, (f a).is_processing = false) :
    inFlight (act.modify sid f) sid = false := by
  unfold inFlight ActiveMap.modify
  rw [if_pos rfl]
  cases act sid
  · rfl
  · exact hf _

/-- Modifying one session's entry leaves other sessions' signals alone. -/
theorem inFlight_modify_ne (act : ActiveMap) (sid x : String)
    (f : ActiveSession → ActiveSession) (h : x ≠ sid) :
    inFlight (act.modify sid f) x = inFlight act x := by
  unfold inFlight ActiveMap.modify
  rw [if_neg h]

/-- Removing a session's entry makes its in-flight signal false. -/
theorem inFlight_remove_self (act : ActiveMap) (sid : String) :
    inFlight (act.remove sid) sid = false := by
  unfold inFlight ActiveMap.remove
  rw [if_pos rfl]

/-- Removing one session's entry leaves other sessions' signals alone. -/
theorem inFlight_remove_ne (act : ActiveMap) (sid x : String) (h : x ≠ sid) :
    inFlight (act.remove sid) x = inFlight act x := by
  unfold inFlight ActiveMap.remove
  rw [if_neg h]

/-- Each row after update_session_status comes from a source row with the
same id, and its status is the written one exactly when the id matches. -/
theorem mem_update_session_status {db : DB} {sid : String}
    {st : SessionStatus} {now : Nat} {r : SessionRow}
    (hr : r ∈ (db.update_session_status sid st now).sessions) :
    ∃ r₀ ∈ db.sessions, r₀.id = r.id ∧
      r.status = (if r₀.id = sid then st else r₀.status) := by
  unfold DB.update_session_status at hr
  simp only [List.mem_map] at hr
  obtain ⟨r₀, hr₀, heq⟩ := hr
  by_cases hid : r₀.id = sid
  · rw [if_pos hid] at heq
    subst heq
    exact ⟨r₀, hr₀, rfl, by rw [if_pos hid]⟩
  · rw [if_neg hid] at heq
    subst heq
    exact ⟨r₀, hr₀, rfl, by rw [if_neg hid]⟩

/-- Each row after add_message comes from a source row with the same id
and status (only updated_at can change). -/
theorem mem_add_message {db : DB} {sid role content mid : String}
    {now : Nat} {r : SessionRow}
    (hr : r ∈ (db.add_message sid role content mid now).sessions) :
    ∃ r₀ ∈ db.sessions, r₀.id = r.id ∧ r.status = r₀.status := by
  unfold DB.add_message at hr
  simp only [List.mem_map] at hr
  obtain ⟨r₀, hr₀, heq⟩ := hr
  by_cases hid : r₀.id = sid
  · rw [if_pos hid] at heq
    subst heq
    exact ⟨r₀, hr₀, rfl, rfl⟩
  · rw [if_neg hid] at heq
    subst heq
    exact ⟨r₀, hr₀, rfl, rfl⟩

/-- Writing a non-PROCESSING status for a session while clearing its
guard entry preserves the agreement of the two signals. -/
theorem agree_after_status_clear (db : DB) (act : ActiveMap) (sid : String)
    (st : SessionStatus) (now : Nat) (hst : st ≠ .PROCESSING)
    (h : Agree db act) :
    Agree (db.update_session_status sid st now)
      (act.modify sid fun a =>
        { a with is_processing := false, runner_present := false }) := by
  intro r hr
  obtain ⟨r₀, hr₀, hid, hs⟩ := mem_update_session_status hr
  by_cases hcase : r₀.id = sid
  · rw [if_pos hcase] at hs
    rw [hs, ← hid, hcase,
      inFlight_modify_self act sid _ (fun _ => rfl)]
    simp [hst]
  · rw [if_neg hcase] at hs
    rw [hs, ← hid, inFlight_modify_ne act sid r₀.id _ hcase]
    exact h r₀ hr₀

/-- A store with one PROCESSING row for sess_p. -/
def dbProc : DB :=
  ⟨[⟨"sess_p", .PROCESSING, none, none, none, 0, 0⟩], []⟩

/-- A guard map recording an in-flight execution for sess_p, the state
that accompanies a PROCESSING row. -/
def actProc : ActiveMap :=
  fun x => if x = "sess_p" then some ⟨"sess_p", true, true⟩ else none

/-- C3 counterexample: in the state where session sess_p is persisted as
PROCESSING and the guard records its in-flight execution (the two signals
agree), cancel_processing cancels the runner, reports true and clears the
in-memory flag, but never updates the persisted status, which stays
PROCESSING: after the operation completes the two signals disagree. -/
theorem C3_counterexample_cancel_breaks_agreement :
    Agree dbProc actProc ∧
    (cancel_processing dbProc actProc "sess_p").2.2 = true ∧
    (cancel_processing dbProc actProc "sess_p").1 = dbProc ∧
    ¬ Agree (cancel_processing dbProc actProc "sess_p").1
        (cancel_processing dbProc actProc "sess_p").2.1 := by
  refine ⟨by decide, rfl, rfl, by decide⟩

/-- C3 amended: agreement of the persisted PROCESSING status with the
in-memory guard is preserved by send_message (all paths), by
delete_session, and by the completion handler when the awaited task
completes or raises; but cancel_processing and the completion handler's
cancellation path clear the in-memory guard without ever updating the
persisted status, so a session cancelled while PROCESSING is left with
the two signals disagreeing. -/
theorem C3_amended_guard_agreement
    (db : DB) (dm : DMState) (act : ActiveMap) (session : SessionRow)
    (content mid sid : String) (now : Nat) (newMsgs : List MessageRow)
    (persistFails : Bool) (taskRes : TaskResult)
    (h : Agree db act) (hres : taskRes ≠ .cancelled) :
    Agree (send_message db act session content mid now).1
      (send_message db act session content mid now).2.1 ∧
    Agree (delete_session db dm act sid now).1
      (delete_session db dm act sid now).2.2.1 ∧
    Agree (handle_completion db act sid newMsgs taskRes persistFails now).1
      (handle_completion db act sid newMsgs taskRes persistFails now).2 ∧
    ((cancel_processing db act sid).1 = db ∧
     ((cancel_processing db act sid).2.2 = true →
       inFlight (cancel_processing db act sid).2.1 sid = false)) ∧
    (handle_completion db act sid newMsgs .cancelled persistFails now).1 =
      db ∧
    inFlight
      (handle_completion db act sid newMsgs .cancelled persistFails now).2
      sid = false := by
  refine ⟨?_, ?_, ?_, ⟨?_, ?_⟩, rfl, ?_⟩
  · by_cases h1 : session.status = .PROCESSING
    · unfold send_message
      rw [if_pos h1]
      exact h
    · by_cases h2 : session.status = .ARCHIVED
      · unfold send_message
        rw [if_neg h1, if_pos h2]
        exact h
      · rw [send_message_attr_error db act session content mid now h1 h2]
        intro r hr
        obtain ⟨r₀, hr₀, hid, hst⟩ := mem_add_message hr
        rw [hst, ← hid]
        exact h r₀ hr₀
  · show Agree (db.delete_session sid now) (act.remove sid)
    intro r hr
    obtain ⟨r₀, hr₀, hid, hs⟩ := mem_update_session_status hr
    by_cases hcase : r₀.id = sid
    · rw [if_pos hcase] at hs
      rw [hs, ← hid, hcase, inFlight_remove_self]
      simp
    · rw [if_neg hcase] at hs
      rw [hs, ← hid, inFlight_remove_ne act sid r₀.id hcase]
      exact h r₀ hr₀
  · cases taskRes with
    | cancelled => exact absurd rfl hres
    | raised =>
      exact agree_after_status_clear db act sid .ERROR now (by decide) h
    | completed =>
      cases persistFails with
      | true =>
        exact agree_after_status_clear db act sid .ERROR now (by decide) h
      | false =>
        exact agree_after_status_clear
          { db with messages := db.messages ++ newMsgs } act sid .ACTIVE now
          (by decide) h
  · unfold cancel_processing
    cases act sid with
    | none => rfl
    | some a => cases ha : a.runner_present <;> simp [ha]
  · unfold cancel_processing
    cases hact : act sid with
    | none => intro hc; cases hc
    | some a =>
      cases ha : a.runner_present with
      | false => intro hc; simp [ha] at hc
      | true =>
        intro _
        simp only [ha, if_pos]
        exact inFlight_modify_self act sid _ (fun _ => rfl)
  · exact inFlight_modify_self act sid _ (fun _ => rfl)

/-- Witness for C3 at a concrete agreeing state: deleting the idle
session keeps the two signals in agreement. -/
theorem C3_witness :
    Agree ⟨[sessIdleRow], []⟩ actEmpty ∧
    Agree (delete_session ⟨[sessIdleRow], []⟩ dmEmpty actEmpty "sess_idle" 4).1
      (delete_session ⟨[sessIdleRow], []⟩ dmEmpty actEmpty "sess_idle" 4).2.2.1 :=
  ⟨by decide,
   (C3_amended_guard_agreement ⟨[sessIdleRow], []⟩ dmEmpty actEmpty
      sessIdleRow "hi" "msg_9" "sess_idle" 4 [] false .completed
      (by decide) (by decide)).2.1⟩

/-- C4 counterexample: when the execution fails, AgentRunner._run_loop
catches the exception, emits error events, and the awaited task completes
normally; the completion handler then takes its success path and writes
ACTIVE, not ERROR, for the PROCESSING session. -/
theorem C4_counterexample_failure_yields_active :
    (run_loop true).1 = ["error", "message_complete:error"] ∧
    (run_loop true).2 = TaskResult.completed ∧
    ((handle_completion dbProc actProc "sess_p" [] (run_loop true).2 false
        5).1.sessions.map SessionRow.status = [SessionStatus.ACTIVE]) ∧
    SessionStatus.ACTIVE ≠ SessionStatus.ERROR :=
  ⟨rfl, rfl, by decide, by decide⟩

/-- C4 amended: the runner task completes normally whether or not the
execution failed (its exceptions are converted to events), so the
completion handler writes ACTIVE whenever the awaited task completes and
persisting the produced messages succeeds — including after an execution
failure — and writes ERROR only when the handler itself hits an
Exception (awaiting a task that re-raises, or the persistence step
failing); on the cancellation path no status is written; the in-flight
guard entry is cleared on every path. -/
theorem C4_amended_completion_transitions
    (db : DB) (act : ActiveMap) (sid : String) (newMsgs : List MessageRow)
    (persistFails execFails : Bool) (now : Nat) :
    (run_loop execFails).2 = .completed ∧
    handle_completion db act sid newMsgs .completed false now =
      (DB.update_session_status
        { db with messages := db.messages ++ newMsgs } sid .ACTIVE now,
       act.modify sid fun a =>
         { a with is_processing := false, runner_present := false }) ∧
    handle_completion db act sid newMsgs .completed true now =
      (db.update_session_status sid .ERROR now,
       act.modify sid fun a =>
         { a with is_processing := false, runner_present := false }) ∧
    handle_completion db act sid newMsgs .raised persistFails now =
      (db.update_session_status sid .ERROR now,
       act.modify sid fun a =>
         { a with is_processing := false, runner_present := false }) ∧
    handle_completion db act sid newMsgs .cancelled persistFails now =
      (db,
       act.modify sid fun a =>
         { a with is_processing := false, runner_present := false }) :=
  ⟨by cases execFails <;> rfl, rfl, rfl, rfl, rfl⟩

/-!
Display number allocation, rollback and the token file.
-/

instance {ε α : Type} [DecidableEq ε] [DecidableEq α] :
    DecidableEq (Except ε α) := fun a b =>
  match a, b with
  | .ok x, .ok y =>
    if h : x = y then isTrue (by rw [h]) else isFalse (by simp [h])
  | .error x, .error y =>
    if h : x = y then isTrue (by rw [h]) else isFalse (by simp [h])
  | .ok _, .error _ => isFalse (by simp)
  | .error _, .ok _ => isFalse (by simp)

/-- The scan loop does not move when its start is not a used number. -/
theorem scanFree_eq_self (used : List Nat) (fuel n : Nat) (h : n ∉ used) :
    scanFree used fuel n = n := by
  cases fuel <;> simp [scanFree, h]

/-- Under the allocator invariant (every used number lies below the
cursor), allocation returns the cursor value, marks it used and advances
the cursor; the scan loop never moves, so released numbers below the
cursor are never revisited. -/
theorem allocate_eq (st : DMState)
    (h : ∀ n ∈ st.used_display_nums, n < st.next_display_num) :
    allocateDisplayNum st =
      (st.next_display_num,
       { st with
         used_display_nums := st.next_display_num :: st.used_display_nums,
         next_display_num := st.next_display_num + 1 }) := by
  have hn : st.next_display_num ∉ st.used_display_nums := fun hm =>
    absurd (h _ hm) (lt_irrefl _)
  unfold allocateDisplayNum
  rw [scanFree_eq_self _ _ _ hn]

/-- create_display on an untracked session with no failing step: assigns
the cursor number, computes the port, appends the token line, tracks the
display. -/
theorem create_display_fresh_eq (st : DMState) (sid : String)
    (hfresh : st.displays sid = none)
    (hinv : ∀ n ∈ st.used_display_nums, n < st.next_display_num) :
    create_display st sid none =
      (.ok ⟨sid, st.next_display_num, vnc_base_port + st.next_display_num⟩,
       { displays := fun x => if x = sid then
           some ⟨sid, st.next_display_num,
                 vnc_base_port + st.next_display_num⟩
           else st.displays x,
         used_display_nums := st.next_display_num :: st.used_display_nums,
         next_display_num := st.next_display_num + 1,
         token_file := addToken st.token_file sid
           (vnc_base_port + st.next_display_num) }) := by
  unfold create_display
  simp only [hfresh, allocate_eq st hinv]

/-- create_display on an untracked session when a startup step raises:
the error branch releases the freshly allocated number (leaving the used
set exactly as before), removes the session's token lines, does not touch
the displays dict, and returns RuntimeError; only the cursor stays
advanced. -/
theorem create_display_fail_eq (st : DMState) (sid : String)
    (step : CreateStep) (hfresh : st.displays sid = none)
    (hinv : ∀ n ∈ st.used_display_nums, n < st.next_display_num) :
    create_display st sid (some step) =
      (.error (.runtimeError ("Failed to create display: " ++ step.describe)),
       { st with next_display_num := st.next_display_num + 1,
                 token_file := removeToken st.token_file sid }) := by
  have hrel : (st.next_display_num :: st.used_display_nums).filter
      (fun m => !(m == st.next_display_num)) = st.used_display_nums := by
    rw [List.filter_cons_of_neg (by simp)]
    exact List.filter_eq_self.mpr fun a ha => by
      simp [Nat.ne_of_lt (hinv a ha)]
  unfold create_display
  simp only [hfresh, allocate_eq st hinv]
  simp [releaseDisplayNum, hrel]

/-- Sequential create_display calls, collecting the assigned numbers;
the lock in the source serialises concurrent callers into exactly such a
sequence. -/
def createMany : DMState → List String → List Nat × DMState
  | st, [] => ([], st)
  | st, sid :: rest =>
    let (res, st1) := create_display st sid none
    let (nums, st2) := createMany st1 rest
    match res with
    | .ok info => (info.display_num :: nums, st2)
    | .error _ => (nums, st2)

/-- From an invariant-satisfying state, creating displays for distinct
untracked sessions assigns the consecutive numbers starting at the
cursor. -/
theorem createMany_assigns_range (st : DMState) (sids : List String)
    (hinv : ∀ n ∈ st.used_display_nums, n < st.next_display_num)
    (hfresh : ∀ s ∈ sids, st.displays s = none)
    (hnd : sids.Nodup) :
    (createMany st sids).1 =
      List.range' st.next_display_num sids.length := by
  induction sids generalizing st with
  | nil => rfl
  | cons sid rest ih =>
    have hfsid : st.displays sid = none := hfresh sid (List.mem_cons_self sid rest)
    rw [createMany, create_display_fresh_eq st sid hfsid hinv]
    have hinv1 : ∀ n ∈ st.next_display_num :: st.used_display_nums,
        n < st.next_display_num + 1 := by
      intro n hn
      rcases List.mem_cons.mp hn with h | h
      · omega
      · exact Nat.lt_succ_of_lt (hinv n h)
    have hfresh1 : ∀ s ∈ rest,
        (if s = sid then
          some (⟨sid, st.next_display_num,
                 vnc_base_port + st.next_display_num⟩ : DisplayInfo)
         else st.displays s) = none := by
      intro s hs
      have hne : s ≠ sid := by
        rintro rfl
        exact (List.nodup_cons.mp hnd).1 hs
      simpa [hne] using hfresh s (List.mem_cons_of_mem sid hs)
    have hrest := ih
      { displays := fun x => if x = sid then
          some ⟨sid, st.next_display_num,
                vnc_base_port + st.next_display_num⟩
          else st.displays x,
        used_display_nums := st.next_display_num :: st.used_display_nums,
        next_display_num := st.next_display_num + 1,
        token_file := addToken st.token_file sid
          (vnc_base_port + st.next_display_num) }
      hinv1 hfresh1 (List.nodup_cons.mp hnd).2
    simp only [List.length_cons, List.range'_succ]
    rw [← hrest]

/-- C5 counterexample: from a fresh manager, create a display for s1
(number 1), destroy it (number 1 is released, the cursor stands at 2 so
1 is a free number below the cursor), then create a display for s2: the
allocator assigns 2, not the released number 1, refuting the claim that
a subsequent create_display reuses exactly the released number. -/
theorem C5_counterexample_released_number_not_reused :
    (create_display dmEmpty "s1" none).1 =
      .ok ⟨"s1", 1, 5901⟩ ∧
    (destroy_display (create_display dmEmpty "s1" none).2 "s1").1 = true ∧
    (1 ∉ (destroy_display (create_display dmEmpty "s1" none).2
        "s1").2.used_display_nums) ∧
    (destroy_display (create_display dmEmpty "s1" none).2
        "s1").2.next_display_num = 2 ∧
    (create_display (destroy_display (create_display dmEmpty "s1" none).2
        "s1").2 "s2" none).1 = .ok ⟨"s2", 2, 5902⟩ ∧
    (2 : Nat) ≠ 1 := by
  decide

/-- C5 amended: any sequence of create_display calls for distinct
untracked sessions assigns the consecutive numbers starting at the
cursor — in particular pairwise distinct numbers, and numbers are never
reused while held; but after destroy_display releases a number, a
subsequent create_display does not reuse it: allocation scans upward from
the cursor, which exceeds every previously allocated number, so the new
display receives the cursor value, which differs from the released
number. -/
theorem C5_amended_distinct_but_no_reuse (st : DMState)
    (sids : List String) (t sid : String) (info : DisplayInfo)
    (hinv : ∀ n ∈ st.used_display_nums, n < st.next_display_num)
    (hfresh : ∀ s ∈ sids, st.displays s = none)
    (hnd : sids.Nodup)
    (ht : st.displays t = some info)
    (hused : info.display_num ∈ st.used_display_nums)
    (hsid : st.displays sid = none) :
    ((createMany st sids).1 =
        List.range' st.next_display_num sids.length ∧
     (createMany st sids).1.Nodup) ∧
    ((destroy_display st t).1 = true ∧
     info.display_num ∉ (destroy_display st t).2.used_display_nums ∧
     ∃ info2,
       (create_display (destroy_display st t).2 sid none).1 = .ok info2 ∧
       info2.display_num = st.next_display_num ∧
       info2.display_num ≠ info.display_num) := by
  have hdestroy : destroy_display st t =
      (true,
       { displays := fun x => if x = t then none else st.displays x,
         used_display_nums := st.used_display_nums.filter
           (fun m => !(m == info.display_num)),
         next_display_num := st.next_display_num,
         token_file := removeToken st.token_file t }) := by
    unfold destroy_display
    simp only [ht]
    rfl
  refine ⟨⟨createMany_assigns_range st sids hinv hfresh hnd, ?_⟩, ?_, ?_, ?_⟩
  · rw [createMany_assigns_range st sids hinv hfresh hnd]
    exact List.nodup_range' _ _
  · rw [hdestroy]
  · rw [hdestroy]
    simp
  · have hfresh2 : (destroy_display st t).2.displays sid = none := by
      rw [hdestroy]
      by_cases hts : sid = t
      · simp [hts]
      · simpa [hts] using hsid
    have hinv2 : ∀ n ∈ (destroy_display st t).2.used_display_nums,
        n < (destroy_display st t).2.next_display_num := by
      rw [hdestroy]
      intro n hn
      exact hinv n (List.mem_of_mem_filter hn)
    refine ⟨⟨sid, (destroy_display st t).2.next_display_num,
      vnc_base_port + (destroy_display st t).2.next_display_num⟩,
      ?_, ?_, ?_⟩
    · rw [create_display_fresh_eq _ sid hfresh2 hinv2]
    · rw [hdestroy]
    · rw [hdestroy]
      exact fun hc => absurd (hinv _ hused) (by rw [← hc]; exact lt_irrefl _)

/-- Witness for C5 at a concrete state: two fresh sessions from the
empty manager get numbers 1 and 2, and after destroying a tracked
session the next creation also avoids the released number. -/
theorem C5_witness :
    (createMany dmEmpty ["sa", "sb"]).1 = [1, 2] ∧
    (createMany dmEmpty ["sa", "sb"]).1.Nodup ∧
    ∃ info2,
      (create_display (destroy_display dmIdle "sess_idle").2 "sc" none).1 =
        .ok info2 ∧ info2.display_num = 2 ∧ info2.display_num ≠ 1 := by
  have h := C5_amended_distinct_but_no_reuse dmIdle ["sa", "sb"] "sess_idle"
    "sc" ⟨"sess_idle", 1, 5901⟩
    (by decide) (by decide) (by decide) (by decide) (by decide) (by decide)
  exact ⟨by decide, by decide, h.2.2.2⟩

/-- The token line written for a session starts with the session id
followed by a colon. -/
theorem pyStartsWith_token_line (sid : String) (port : Nat) :
    pyStartsWith (sid ++ ": localhost:" ++ toString port ++ "\n")
      (sid ++ ":") = true := by
  unfold pyStartsWith
  rw [List.isPrefixOf_iff_prefix]
  simp only [String.data_append]
  simp [List.append_assoc]

/-- Every line surviving _remove_token fails the session's line test. -/
theorem removeToken_no_session_lines (file : List String) (sid : String) :
    ∀ line ∈ removeToken file sid, pyStartsWith line (sid ++ ":") = false := by
  intro line hl
  have h := (List.mem_filter.mp hl).2
  simpa using h

/-- After _remove_token, filtering for the session's lines gives none. -/
theorem removeToken_clears (file : List String) (sid : String) :
    (removeToken file sid).filter
      (fun l => pyStartsWith l (sid ++ ":")) = [] := by
  apply List.filter_eq_nil_iff.mpr
  intro a ha
  simp [removeToken_no_session_lines file sid a ha]

/-- destroy_display on a tracked session: reports true, removes the
token lines, drops tracking, releases the number, keeps the cursor. -/
theorem destroy_display_tracked_eq (st : DMState) (sid : String)
    (info : DisplayInfo) (h : st.displays sid = some info) :
    destroy_display st sid =
      (true,
       { displays := fun x => if x = sid then none else st.displays x,
         used_display_nums := st.used_display_nums.filter
           (fun m => !(m == info.display_num)),
         next_display_num := st.next_display_num,
         token_file := removeToken st.token_file sid }) := by
  unfold destroy_display
  simp only [h]
  rfl

/-- C7: when a startup step of create_display raises after the display
number was allocated, the handler releases the number (the used set is
exactly what it was, and the allocated cursor number is not held), leaves
the session untracked, leaves no token line for the session, and raises
a RuntimeError. -/
theorem C7_create_display_failure_rolls_back (st : DMState) (sid : String)
    (step : CreateStep)
    (hfresh : st.displays sid = none)
    (hinv : ∀ n ∈ st.used_display_nums, n < st.next_display_num) :
    (∃ msg, (create_display st sid (some step)).1 =
      .error (.runtimeError msg)) ∧
    (create_display st sid (some step)).2.used_display_nums =
      st.used_display_nums ∧
    st.next_display_num ∉
      (create_display st sid (some step)).2.used_display_nums ∧
    (create_display st sid (some step)).2.displays = st.displays ∧
    (create_display st sid (some step)).2.displays sid = none ∧
    ∀ line ∈ (create_display st sid (some step)).2.token_file,
      pyStartsWith line (sid ++ ":") = false := by
  rw [create_display_fail_eq st sid step hfresh hinv]
  refine ⟨⟨_, rfl⟩, rfl, ?_, rfl, hfresh, removeToken_no_session_lines _ _⟩
  intro hc
  exact absurd (hinv _ hc) (lt_irrefl _)

/-- A manager with no displays and two token lines, one of them stale
for session sx. -/
def dmTok : DMState :=
  ⟨fun _ => none, [], 1,
   ["sx: localhost:5905\n", "other: localhost:5906\n"]⟩

/-- Witness for C7: a VNC-start failure for sx rolls back the number,
leaves sx untracked and strips the stale sx token line while keeping the
other session's line. -/
theorem C7_witness :
    dmTok.displays "sx" = none ∧
    (∃ msg, (create_display dmTok "sx" (some .startVnc)).1 =
      .error (.runtimeError msg)) ∧
    (create_display dmTok "sx" (some .startVnc)).2.used_display_nums =
      ([] : List Nat) ∧
    (create_display dmTok "sx" (some .startVnc)).2.token_file =
      ["other: localhost:5906\n"] := by
  have h := C7_create_display_failure_rolls_back dmTok "sx" .startVnc
    (by decide) (by decide)
  exact ⟨rfl, h.1, h.2.1, by decide⟩

/-- A manager with no displays and one token line of another session. -/
def dmTokOther : DMState :=
  ⟨fun _ => none, [], 1, ["other: localhost:5906\n"]⟩

/-- C8: for a session with no prior token-file entry, after a successful
create_display the token file holds exactly one line starting with the
session id and a colon, and that line is the exact string the manager
writes: the id, a colon and space, localhost, a colon and the VNC port;
after destroy_display no line starts with the id and a colon. -/
theorem C8_token_file_round_trip (st : DMState) (sid : String)
    (hfresh : st.displays sid = none)
    (hinv : ∀ n ∈ st.used_display_nums, n < st.next_display_num)
    (htok : ∀ line ∈ st.token_file, pyStartsWith line (sid ++ ":") = false) :
    ∃ info, (create_display st sid none).1 = .ok info ∧
      info.session_id = sid ∧
      info.vnc_port = vnc_base_port + info.display_num ∧
      ((create_display st sid none).2.token_file.filter
        (fun l => pyStartsWith l (sid ++ ":"))) =
        [sid ++ ": localhost:" ++ toString info.vnc_port ++ "\n"] ∧
      (destroy_display (create_display st sid none).2 sid).1 = true ∧
      ((destroy_display (create_display st sid none).2 sid).2.token_file.filter
        (fun l => pyStartsWith l (sid ++ ":"))) = [] := by
  rw [create_display_fresh_eq st sid hfresh hinv]
  have hd : (fun x => if x = sid then
      some (⟨sid, st.next_display_num,
             vnc_base_port + st.next_display_num⟩ : DisplayInfo)
      else st.displays x) sid =
      some ⟨sid, st.next_display_num, vnc_base_port + st.next_display_num⟩ := by
    simp
  refine ⟨⟨sid, st.next_display_num, vnc_base_port + st.next_display_num⟩,
    rfl, rfl, rfl, ?_, ?_, ?_⟩
  · show (addToken st.token_file sid _).filter _ = _
    unfold addToken
    rw [List.filter_append,
      List.filter_eq_nil_iff.mpr (fun a ha => by simp [htok a ha])]
    simp [pyStartsWith_token_line]
  · rw [destroy_display_tracked_eq _ sid _ hd]
  · rw [destroy_display_tracked_eq _ sid _ hd]
    exact removeToken_clears _ sid

/-- Witness for C8: creating a display for sz from a token file holding
only another session's line yields exactly one sz line of the documented
form, and destroying sz leaves zero sz lines. -/
theorem C8_witness :
    (∀ line ∈ dmTokOther.token_file,
      pyStartsWith line ("sz" ++ ":") = false) ∧
    ∃ info, (create_display dmTokOther "sz" none).1 = .ok info ∧
      info.session_id = "sz" ∧
      info.vnc_port = vnc_base_port + info.display_num ∧
      ((create_display dmTokOther "sz" none).2.token_file.filter
        (fun l => pyStartsWith l ("sz" ++ ":"))) =
        ["sz" ++ ": localhost:" ++ toString info.vnc_port ++ "\n"] ∧
      (destroy_display (create_display dmTokOther "sz" none).2 "sz").1 =
        true ∧
      ((destroy_display (create_display dmTokOther "sz" none).2
          "sz").2.token_file.filter
        (fun l => pyStartsWith l ("sz" ++ ":"))) = [] :=
  ⟨by decide,
   C8_token_file_round_trip dmTokOther "sz" (by decide) (by decide)
     (by decide)⟩

/-!
Disk usage accounting over the copy-on-write layers.
-/

/-- The base template tree and a session's upper layer are disjoint: a
file under /sessions/base is never under /sessions/active/sid/upper. -/
theorem base_not_under_upper (sid : String) (f : PFile)
    (h : underDir filesystem_base_dir f = true) :
    underDir (upperDir sid) f = false := by
  rw [Bool.eq_false_iff]
  intro hc
  rw [underDir, List.isPrefixOf_iff_prefix] at h hc
  obtain ⟨t, ht⟩ := h
  obtain ⟨u, hu⟩ := hc
  rw [← ht] at hu
  simp [filesystem_base_dir, upperDir, active_dir] at hu

/-- The FilesystemInfo that create_filesystem builds for a session. -/
def fsInfoFor (sid : String) : FilesystemInfo :=
  { session_id := sid
    home_path := sessionRootDir sid ++ ["merged", "home", "user"]
    tmp_path := sessionRootDir sid ++ ["merged", "tmp"]
    merged_root := sessionRootDir sid ++ ["merged"]
    upper_path := upperDir sid
    is_mounted := true }

/-- create_filesystem on an untracked session when the overlay probe
succeeds: tracks the mounted FilesystemInfo and leaves the disk's files
untouched (only directories are created). -/
theorem create_filesystem_fresh_eq (st : FSState) (sid : String)
    (hfresh : st.filesystems sid = none) :
    create_filesystem st sid true =
      (.ok (fsInfoFor sid),
       { st with filesystems := fun x =>
           if x = sid then some (fsInfoFor sid) else st.filesystems x }) := by
  unfold create_filesystem
  simp only [hfresh]
  rfl

/-- get_disk_usage on a tracked session reports the sum of the sizes of
the files under the session's upper layer. -/
theorem get_disk_usage_tracked (st : FSState) (sid : String)
    (i : FilesystemInfo) (h : st.filesystems sid = some i) :
    get_disk_usage st sid =
      some (((st.disk.filter (underDir (upperDir sid))).map PFile.size).sum) := by
  unfold get_disk_usage
  rw [h]

/-- C10: disk usage counts the upper layer only.  After create_filesystem
on a clean state the session is tracked and its usage is 0; once a
non-empty file exists under the session's upper layer (where overlay
copy-on-write materialises writes made through the merged mount) the
usage is positive; and adding any set of files that live under the shared
base template never changes any session's reported usage. -/
theorem C10_disk_usage_counts_upper_only (st : FSState) (sid : String)
    (f : PFile) (bs : List PFile)
    (hfresh : st.filesystems sid = none)
    (hclean : ∀ g ∈ st.disk, underDir (upperDir sid) g = false)
    (hu : underDir (upperDir sid) f = true)
    (hs : 0 < f.size)
    (hbase : ∀ g ∈ bs, underDir filesystem_base_dir g = true) :
    get_disk_usage (create_filesystem st sid true).2 sid = some 0 ∧
    (∃ n, get_disk_usage
        ⟨(create_filesystem st sid true).2.filesystems,
         (create_filesystem st sid true).2.disk ++ [f]⟩ sid = some n ∧
      0 < n) ∧
    (∀ st' : FSState,
      get_disk_usage ⟨st'.filesystems, st'.disk ++ bs⟩ sid =
        get_disk_usage st' sid) := by
  have heq := create_filesystem_fresh_eq st sid hfresh
  have htr : (create_filesystem st sid true).2.filesystems sid =
      some (fsInfoFor sid) := by
    rw [heq]
    simp
  refine ⟨?_, ?_, ?_⟩
  · rw [get_disk_usage_tracked _ sid _ htr, heq]
    rw [List.filter_eq_nil_iff.mpr fun g hg => by simp [hclean g hg]]
    rfl
  · have htr2 : (⟨(create_filesystem st sid true).2.filesystems,
        (create_filesystem st sid true).2.disk ++ [f]⟩ :
          FSState).filesystems sid = some (fsInfoFor sid) := htr
    rw [get_disk_usage_tracked _ sid _ htr2]
    refine ⟨_, rfl, ?_⟩
    have hmem : f ∈ ((create_filesystem st sid true).2.disk ++ [f]).filter
        (underDir (upperDir sid)) :=
      List.mem_filter.mpr
        ⟨List.mem_append_right _ (List.mem_singleton.mpr rfl), hu⟩
    exact lt_of_lt_of_le hs
      (List.single_le_sum (fun x _ => Nat.zero_le x) _
        (List.mem_map_of_mem PFile.size hmem))
  · intro st'
    have hb : bs.filter (underDir (upperDir sid)) = [] :=
      List.filter_eq_nil_iff.mpr fun g hg => by
        simp [base_not_under_upper sid g (hbase g hg)]
    cases hfs : st'.filesystems sid with
    | none => simp only [get_disk_usage, hfs]
    | some i =>
      simp only [get_disk_usage, hfs, List.filter_append, hb,
        List.append_nil]

/-- Witness for C10 over a concrete empty manager, a one-byte file in
the session upper layer and one base-template file. -/
theorem C10_witness :
    get_disk_usage (create_filesystem fsEmpty "sf" true).2 "sf" = some 0 ∧
    (∃ n, get_disk_usage
        ⟨(create_filesystem fsEmpty "sf" true).2.filesystems,
         (create_filesystem fsEmpty "sf" true).2.disk ++
           [⟨upperDir "sf", "notes.txt", 1⟩]⟩ "sf" = some n ∧
      0 < n) ∧
    (∀ st' : FSState,
      get_disk_usage
        ⟨st'.filesystems,
         st'.disk ++ [⟨filesystem_base_dir ++ ["home", "user"], "base.cfg", 9⟩]⟩
        "sf" = get_disk_usage st' "sf") :=
  C10_disk_usage_counts_upper_only fsEmpty "sf"
    ⟨upperDir "sf", "notes.txt", 1⟩
    [⟨filesystem_base_dir ++ ["home", "user"], "base.cfg", 9⟩]
    (by decide) (by decide) (by decide) (by decide) (by decide)

end DeskCloud
